import Mathlib

/-!
Shallow embedding of the Object-Detection microservice pair
(src/ai-backend/app.py, a FastAPI detection service, and
src/ui-backend/app.py, a Flask ingestion gateway), together with
theorems settling the specification claims about the detection
request pipeline.

Modelling conventions:
* Python floats are modelled as exact rationals (ℚ); python `round(x, n)`
  is modelled as ties-to-even rounding at `n` decimal places.
* Filenames and timestamps are strings; `os.path.splitext` and
  `str.rsplit` with separator `.` are embedded over `String.data`.
* I/O steps that can fail at runtime (reading the upload, decoding the
  image, inference, saving files) are driven by boolean success flags in
  the request record; each write is modelled as atomic.
* An HTTP handler is a total function from such a request record to an
  outcome record carrying the response status, the response body, and
  the final file-system facts (which artifact files exist).
-/

namespace ObjDet

/-- Round a rational to the nearest integer with ties to even,
the semantics of python builtin `round` (idealized over exact values);
`Rat.floor` is the computable floor of a rational. -/
def roundHalfEven (q : ℚ) : ℤ :=
  if q - (q.floor : ℚ) < 1/2 then q.floor
  else if q - (q.floor : ℚ) = 1/2 then (if 2 ∣ q.floor then q.floor else q.floor + 1)
  else q.floor + 1

/-- python `round(q, 2)` over exact rationals. -/
def round2 (q : ℚ) : ℚ := (roundHalfEven (q * 100) : ℚ) / 100

/-- python `round(q, 4)` over exact rationals. -/
def round4 (q : ℚ) : ℚ := (roundHalfEven (q * 10000) : ℚ) / 10000

/-- Split a character list at its LAST dot: `rsplitDot cs = some (r, e)`
when `cs = r ++ dot :: e` with no dot in `e`; `none` when `cs` has no dot.
This is python `s.rsplit(sep = chr(46), maxsplit = 1)` producing two parts. -/
def rsplitDot : List Char → Option (List Char × List Char)
  | [] => none
  | c :: cs =>
    match rsplitDot cs with
    | some (r, e) => some (c :: r, e)
    | none => if c = '.' then some ([], cs) else none

/-- python `os.path.splitext` for a path with no directory separator:
split off the extension at the last dot, except that a basename whose
characters before that dot are all dots (e.g. a leading-dot file) keeps
the dot and has empty extension. -/
def splitext (f : String) : String × String :=
  match rsplitDot f.data with
  | some (root, e) =>
    if root.any (fun c => decide (c ≠ '.')) then (⟨root⟩, ⟨'.' :: e⟩) else (f, "")
  | none => (f, "")

/-- `os.path.splitext(f)[0]`, the basename with the extension removed. -/
def baseNameOf (f : String) : String := (splitext f).1

end ObjDet

namespace ObjDet.AiBackend

/-- One raw prediction row of `results.pandas().xyxy[0]` in
src/ai-backend/app.py: the unrounded model outputs consumed by
`parse_results`. -/
structure RawRow where
  name : String
  confidence : ℚ
  xmin : ℚ
  ymin : ℚ
  xmax : ℚ
  ymax : ℚ
  deriving DecidableEq, Repr

/-- `bounding_box` object of a detection (2-decimal rounded corners). -/
structure BoundingBox where
  x_min : ℚ
  y_min : ℚ
  x_max : ℚ
  y_max : ℚ
  deriving DecidableEq, Repr

/-- `center` object of a detection. -/
structure Center where
  x : ℚ
  y : ℚ
  deriving DecidableEq, Repr

/-- One element of the `detections` list built by `parse_results`
(field `cls` embeds the JSON key named by the python string for class). -/
structure Detection where
  object_id : Nat
  cls : String
  confidence : ℚ
  bounding_box : BoundingBox
  center : Center
  deriving DecidableEq, Repr

/-- The detection dict built for row `row` at dataframe index `idx`
(body of the loop in `parse_results`, src/ai-backend/app.py lines 175-191):
box corners rounded to 2 decimals, confidence to 4, and the center
computed from the RAW `xmin`/`xmax`/`ymin`/`ymax` values. -/
def mkDetection (idx : Nat) (row : RawRow) : Detection :=
  { object_id := idx + 1
    cls := row.name
    confidence := round4 row.confidence
    bounding_box :=
      { x_min := round2 row.xmin
        y_min := round2 row.ymin
        x_max := round2 row.xmax
        y_max := round2 row.ymax }
    center :=
      { x := round2 ((row.xmin + row.xmax) / 2)
        y := round2 ((row.ymin + row.ymax) / 2) } }

/-- The loop of `parse_results` starting at dataframe index `idx`. -/
def parseFrom (idx : Nat) : List RawRow → List Detection
  | [] => []
  | row :: rows => mkDetection idx row :: parseFrom (idx + 1) rows

/-- `parse_results` (src/ai-backend/app.py lines 163-193): map the raw
prediction rows, in order, to detection records with 1-based object ids. -/
def parse_results (rows : List RawRow) : List Detection := parseFrom 0 rows

/-- `result_filename_img = f"result_\x7btimestamp\x7d_\x7bbase_name\x7d.jpg"`
(line 124), with `base_name = os.path.splitext(file.filename)[0]`. -/
def resultFilenameImg (timestamp filename : String) : String :=
  "result_" ++ timestamp ++ "_" ++ ObjDet.baseNameOf filename ++ ".jpg"

/-- `result_filename_json = f"result_\x7btimestamp\x7d_\x7bbase_name\x7d.json"`
(line 150). -/
def resultFilenameJson (timestamp filename : String) : String :=
  "result_" ++ timestamp ++ "_" ++ ObjDet.baseNameOf filename ++ ".json"

/-- `image_size` object of the response. -/
structure ImageSize where
  width : Nat
  height : Nat
  deriving DecidableEq, Repr

/-- The `response_data` dict of `detect_objects` (lines 136-148); the
`result_json` key is optional because it is inserted only after the JSON
artifact has been dumped (line 156). -/
structure ResponseData where
  success : Bool
  image_name : String
  image_size : ImageSize
  detections_count : Nat
  detections : List Detection
  result_image : String
  result_json : Option String
  timestamp : String
  deriving DecidableEq, Repr

/-- A `/detect` request together with the runtime facts that decide each
fallible step of the handler: whether the model is loaded, the declared
content type, whether reading / decoding / inference / the image save /
the JSON dump succeed, the decoded image dimensions, the raw prediction
rows, the two formatted clock values, and the message of any injected
runtime exception. -/
structure DetectRequest where
  modelLoaded : Bool
  content_type : String
  filename : String
  readOk : Bool
  decodeOk : Bool
  width : Nat
  height : Nat
  inferOk : Bool
  rows : List RawRow
  renderSaveOk : Bool
  jsonDumpOk : Bool
  ts : String
  isoTs : String
  errMsg : String
  deriving DecidableEq, Repr

/-- Outcome of one `/detect` call: HTTP status, error detail (for non-200),
response body (for 200), whether the annotated-image artifact exists,
whether the JSON artifact exists, and the parsed content of the JSON
artifact when it was written. -/
structure DetectOutcome where
  status : Nat
  detail : Option String
  body : Option ResponseData
  imgWritten : Bool
  jsonWritten : Bool
  jsonArtifact : Option ResponseData
  deriving DecidableEq, Repr

/-- `file.content_type.startswith` applied to the string image-slash
(src/ai-backend/app.py line 103), as a prefix test on the character
data. -/
def contentTypeOk (r : DetectRequest) : Bool :=
  "image/".data.isPrefixOf r.content_type.data

/-- `detect_objects` (src/ai-backend/app.py lines 86-161).

The model-loaded check (line 98) precedes the `try` block, so its 503
escapes untouched.  Every other `raise`, including the 400
`HTTPException` for a non-image content type (line 103), happens inside
the `try` whose blanket `except Exception` (line 159) catches it —
`fastapi.HTTPException` subclasses `Exception` — and re-raises it as a
500 whose detail wraps `str(e)`.  The annotated image is saved (line
131) before the JSON artifact is dumped (lines 153-154); the dumped dict
does not yet contain the `result_json` key, which is added to the
response body afterwards (line 156).  No failure path deletes a file
already written. -/
def detect_objects (r : DetectRequest) : DetectOutcome :=
  if r.modelLoaded = false then
    { status := 503, detail := some "Model not loaded", body := none
      imgWritten := false, jsonWritten := false, jsonArtifact := none }
  else if contentTypeOk r = false then
    { status := 500
      detail := some "Detection failed: 400: File must be an image"
      body := none
      imgWritten := false, jsonWritten := false, jsonArtifact := none }
  else if r.readOk = false ∨ r.decodeOk = false ∨ r.inferOk = false then
    { status := 500, detail := some ("Detection failed: " ++ r.errMsg)
      body := none
      imgWritten := false, jsonWritten := false, jsonArtifact := none }
  else if r.renderSaveOk = false then
    { status := 500, detail := some ("Detection failed: " ++ r.errMsg)
      body := none
      imgWritten := false, jsonWritten := false, jsonArtifact := none }
  else
    let dets := parse_results r.rows
    let base : ResponseData :=
      { success := true
        image_name := r.filename
        image_size := { width := r.width, height := r.height }
        detections_count := dets.length
        detections := dets
        result_image := "/static/results/image/" ++ resultFilenameImg r.ts r.filename
        result_json := none
        timestamp := r.isoTs }
    if r.jsonDumpOk = false then
      { status := 500, detail := some ("Detection failed: " ++ r.errMsg)
        body := none
        imgWritten := true, jsonWritten := false, jsonArtifact := none }
    else
      { status := 200, detail := none
        body := some { base with
          result_json :=
            some ("/static/results/json/" ++ resultFilenameJson r.ts r.filename) }
        imgWritten := true, jsonWritten := true, jsonArtifact := some base }

end ObjDet.AiBackend

namespace ObjDet.UiBackend

/-- `app.config` with the key for allowed extensions
(src/ui-backend/app.py line 23): the extension allow-list. -/
def ALLOWED_EXTENSIONS : List String := ["png", "jpg", "jpeg", "gif", "bmp", "webp"]

/-- `app.config` with the key for the maximum content length
(src/ui-backend/app.py line 21): 16 MiB. -/
def MAX_CONTENT_LENGTH : Nat := 16 * 1024 * 1024

/-- python `str.lower` (ASCII-faithful, via `Char.toLower`). -/
def lowerStr (s : String) : String := ⟨s.data.map Char.toLower⟩

/-- `allowed_file` (src/ui-backend/app.py lines 31-34): the filename must
contain a dot, and the part after the LAST dot, lowercased, must be in
the allow-list. -/
def allowed_file (filename : String) : Bool :=
  match ObjDet.rsplitDot filename.data with
  | some (_, e) => ALLOWED_EXTENSIONS.contains (lowerStr ⟨e⟩)
  | none => false

/-- The JSON body the detection service answered with, as the gateway
sees it after `response.json()`: the three keys the gateway may fill in
are optional, `detections` is optional (the gateway reads it with
`result.get` and default `[]`), and `rest` stands for every other
key-value pair, which the gateway never touches. -/
structure UpstreamBody where
  success : Option Bool
  image_name : Option String
  detections_count : Option Nat
  detections : Option (List ObjDet.AiBackend.Detection)
  rest : List (String × String)
  deriving DecidableEq, Repr

/-- Outcome of `requests.post` to the detection service as seen by the
`upload` handler: an HTTP response (status, parsed JSON body, raw text),
a timeout, a connection error, or any other local exception. -/
inductive UpstreamOutcome where
  | http (status : Nat) (body : UpstreamBody) (text : String)
  | timeout
  | connectionError
  | otherError (msg : String)
  deriving DecidableEq, Repr

/-- Body of the gateway response: either the upstream JSON passed
through (with defaults filled in), or a failure object
`\x7b"success": false, "error": msg\x7d`. -/
inductive GwBody where
  | passthrough (b : UpstreamBody)
  | failure (msg : String)
  deriving DecidableEq, Repr

/-- Default filling of src/ui-backend/app.py lines 139-145: set
`success`, `image_name`, `detections_count` only when the upstream body
lacks them; `image_name` defaults to the sanitized filename, and
`detections_count` to the length of `result.get` of detections with
default `[]`. -/
def fillDefaults (filename : String) (b : UpstreamBody) : UpstreamBody :=
  { b with
    success := some (b.success.getD true)
    image_name := some (b.image_name.getD filename)
    detections_count :=
      some (b.detections_count.getD (b.detections.getD []).length) }

/-- The forwarding branch of `upload` (src/ui-backend/app.py lines
124-172): status 200 passes the (default-filled) body through with
status 200; any other upstream status is propagated with a normalized
error body; timeout gives 504, connection error 503, and any other local
exception 500. -/
def forward_response (filename : String) (o : UpstreamOutcome) : Nat × GwBody :=
  match o with
  | .http status body text =>
    if status = 200 then (200, .passthrough (fillDefaults filename body))
    else (status, .failure ("AI backend error: " ++ text))
  | .timeout => (504, .failure "AI backend request timeout")
  | .connectionError =>
    (503, .failure "Cannot connect to AI backend service. Please ensure it\x27s running.")
  | .otherError msg =>
    (500, .failure ("Error communicating with AI backend: " ++ msg))

/-- One `/upload` request with the runtime facts the handler branches
on: the request content length, whether the multipart field named image
is present, the original filename, whether the staged bytes decode as a
valid image, the second-granularity timestamp, and the outcome of the
forwarding call. -/
structure UploadRequest where
  content_length : Nat
  hasImageField : Bool
  filename : String
  decodesOk : Bool
  ts : String
  upstream : UpstreamOutcome
  deriving DecidableEq, Repr

/-- Outcome of one `/upload` call: HTTP status, body, whether the staged
upload file remains on disk after the handler returns, and whether a
forwarding request to the detection service was issued. -/
structure UploadOutcome where
  status : Nat
  body : GwBody
  stagedRemains : Bool
  forwarded : Bool
  deriving DecidableEq, Repr

/-- `upload` (src/ui-backend/app.py lines 68-179), parametric in
werkzeug's `secure_filename` (library code, passed in uninterpreted).

Flask enforces `MAX_CONTENT_LENGTH` lazily: the first access to
`request.files` (line 75) parses the multipart body and raises
werkzeug's `RequestEntityTooLarge` when the content length exceeds the
configured maximum.  That exception is raised inside the handler's
`try`, so the blanket `except Exception` (line 174) catches it and
answers 500 — the staged file is never written and nothing is forwarded.
The three explicit validation checks answer 400 before any file is
saved.  A decode failure removes the staged file (line 114) and answers
400.  On every path that reaches forwarding, the staged file is left on
disk (the known leak). -/
def upload (secure : String → String) (r : UploadRequest) : UploadOutcome :=
  if MAX_CONTENT_LENGTH < r.content_length then
    { status := 500
      body := .failure
        "Internal server error: 413 Request Entity Too Large: The data value transmitted exceeds the capacity limit."
      stagedRemains := false, forwarded := false }
  else if r.hasImageField = false then
    { status := 400, body := .failure "No image file provided"
      stagedRemains := false, forwarded := false }
  else if r.filename = "" then
    { status := 400, body := .failure "No file selected"
      stagedRemains := false, forwarded := false }
  else if allowed_file r.filename = false then
    { status := 400
      body := .failure "Invalid file type. Allowed: png, jpg, jpeg, gif, bmp, webp"
      stagedRemains := false, forwarded := false }
  else if r.decodesOk = false then
    { status := 400, body := .failure "Invalid image file"
      stagedRemains := false, forwarded := false }
  else
    let fwd := forward_response (secure r.filename) r.upstream
    { status := fwd.1, body := fwd.2, stagedRemains := true, forwarded := true }

/-- Staging name `f"\x7btimestamp\x7d_\x7bbase_name\x7d\x7bext\x7d"`
(src/ui-backend/app.py line 104), built from the secured filename. -/
def uniqueFilename (timestamp securedName : String) : String :=
  timestamp ++ "_" ++ (ObjDet.splitext securedName).1 ++ (ObjDet.splitext securedName).2

end ObjDet.UiBackend

namespace ObjDet.AiBackend

/-- A fully healthy `/detect` request: model loaded, image content type,
every runtime step succeeds, no detections. -/
def allOkRequest : DetectRequest :=
  { modelLoaded := true
    content_type := "image/jpeg"
    filename := "cat.jpg"
    readOk := true
    decodeOk := true
    width := 640
    height := 480
    inferOk := true
    rows := []
    renderSaveOk := true
    jsonDumpOk := true
    ts := "20250101_120000"
    isoTs := "2025-01-01T12:00:05"
    errMsg := "" }

/-- Like `allOkRequest` but the JSON dump raises (e.g. disk full after
the image save succeeded). -/
def jsonFailRequest : DetectRequest := { allOkRequest with jsonDumpOk := false, errMsg := "disk full" }

/-- Like `allOkRequest` but with a non-image declared content type. -/
def badContentTypeRequest : DetectRequest := { allOkRequest with content_type := "text/plain" }

/-- The response body `detect_objects` returns for `allOkRequest`. -/
def allOkBody : ResponseData :=
  { success := true
    image_name := "cat.jpg"
    image_size := { width := 640, height := 480 }
    detections_count := 0
    detections := []
    result_image := "/static/results/image/result_20250101_120000_cat.jpg"
    result_json := some "/static/results/json/result_20250101_120000_cat.json"
    timestamp := "2025-01-01T12:00:05" }

/-- A raw prediction row on which rounding the corners before averaging
changes the rounded midpoint: the raw coordinates 1/200 and 3/500 are
0.005 and 0.006. -/
def row0 : RawRow :=
  { name := "person", confidence := 9/10
    xmin := 1/200, ymin := 1/200, xmax := 3/500, ymax := 3/500 }

end ObjDet.AiBackend

namespace ObjDet.UiBackend

/-- An upstream 2xx body that already carries all three fillable keys. -/
def okUpstreamBody : UpstreamBody :=
  { success := some true
    image_name := some "cat.jpg"
    detections_count := some 0
    detections := some []
    rest := [] }

/-- An upload whose staged bytes do not decode as an image, with an
allowed extension. -/
def corruptUploadRequest : UploadRequest :=
  { content_length := 100
    hasImageField := true
    filename := "cat.jpg"
    decodesOk := false
    ts := "20250101_120000"
    upstream := .timeout }

/-- An upload exceeding the 16 MiB content-length ceiling. -/
def oversizeUploadRequest : UploadRequest :=
  { content_length := 16 * 1024 * 1024 + 1
    hasImageField := true
    filename := "cat.jpg"
    decodesOk := true
    ts := "20250101_120000"
    upstream := .timeout }

/-- An upload with a disallowed extension. -/
def badExtUploadRequest : UploadRequest :=
  { content_length := 100
    hasImageField := true
    filename := "notes.txt"
    decodesOk := true
    ts := "20250101_120000"
    upstream := .timeout }

end ObjDet.UiBackend

namespace ObjDet

theorem rsplitDot_eq_none (cs : List Char) (h : '.' ∉ cs) : rsplitDot cs = none := by
  induction cs with
  | nil => rfl
  | cons c cs ih =>
    rw [List.mem_cons] at h
    push_neg at h
    obtain ⟨h1, h2⟩ := h
    have hc : ¬ (c = '.') := fun e => h1 e.symm
    simp [rsplitDot, ih h2, hc]

theorem rsplitDot_append (r e : List Char) (he : '.' ∉ e) :
    rsplitDot (r ++ '.' :: e) = some (r, e) := by
  induction r with
  | nil =>
    simp [rsplitDot, rsplitDot_eq_none e he]
  | cons c r ih =>
    simp [rsplitDot, ih]

theorem data_append_dot (root s : String) :
    (root ++ "." ++ s).data = root.data ++ '.' :: s.data := by
  rw [String.data_append, String.data_append]
  have hdot : (".").data = ['.'] := rfl
  rw [hdot]
  simp

theorem splitext_append (root s : String) (hs : '.' ∉ s.data)
    (hroot : root.data.any (fun c => decide (c ≠ '.')) = true) :
    splitext (root ++ "." ++ s) = (root, "." ++ s) := by
  unfold splitext
  rw [data_append_dot, rsplitDot_append root.data s.data hs]
  have hsecond : (⟨'.' :: s.data⟩ : String) = "." ++ s := by
    apply String.ext
    rw [String.data_append]
    rfl
  split
  · next r e heq =>
    rw [Option.some.injEq, Prod.mk.injEq] at heq
    obtain ⟨hr, he⟩ := heq
    subst hr
    subst he
    rw [if_pos hroot, hsecond]
  · next heq => simp at heq

theorem baseNameOf_append (root s : String) (hs : '.' ∉ s.data)
    (hroot : root.data.any (fun c => decide (c ≠ '.')) = true) :
    baseNameOf (root ++ "." ++ s) = root := by
  unfold baseNameOf
  rw [splitext_append root s hs hroot]

/-- Cancellation for strings of the shape `(P ++ b) ++ S`: the middle
component is determined by the whole. -/
theorem append_middle_inj (P S b1 b2 : String)
    (h : (P ++ b1) ++ S = (P ++ b2) ++ S) : b1 = b2 := by
  apply String.ext
  have hd : (P.data ++ b1.data) ++ S.data = (P.data ++ b2.data) ++ S.data := by
    have hc := congrArg String.data h
    simpa [String.data_append] using hc
  exact List.append_cancel_left (List.append_cancel_right hd)

theorem ratFloor_eq_of (q : ℚ) (n : ℤ) (h1 : (n : ℚ) ≤ q) (h2 : q < (n : ℚ) + 1) :
    q.floor = n := by
  have h3 : n ≤ q.floor := Rat.le_floor.mpr h1
  have h4 : ¬ (n + 1 ≤ q.floor) := by
    intro h
    have hle := Rat.le_floor.mp h
    push_cast at hle
    exact absurd h2 (not_lt.mpr hle)
  omega

theorem roundHalfEven_eq_of_lt (q : ℚ) (n : ℤ) (hf : q.floor = n)
    (hlt : q - (n : ℚ) < 1/2) : roundHalfEven q = n := by
  unfold roundHalfEven
  rw [hf, if_pos hlt]

theorem roundHalfEven_eq_of_gt (q : ℚ) (n : ℤ) (hf : q.floor = n)
    (hgt : 1/2 < q - (n : ℚ)) : roundHalfEven q = n + 1 := by
  unfold roundHalfEven
  rw [hf, if_neg (not_lt.mpr (le_of_lt hgt)), if_neg (ne_of_gt hgt)]

theorem roundHalfEven_tie_even (q : ℚ) (n : ℤ) (hf : q.floor = n)
    (heq : q - (n : ℚ) = 1/2) (hev : 2 ∣ n) : roundHalfEven q = n := by
  unfold roundHalfEven
  rw [hf, if_neg (by rw [heq]; exact lt_irrefl (1/2 : ℚ)), if_pos heq, if_pos hev]

theorem round2_of_eq (q r : ℚ) (n : ℤ) (hq : q * 100 = r)
    (hr : roundHalfEven r = n) : round2 q = (n : ℚ) / 100 := by
  unfold round2
  rw [hq, hr]

/-- `round(0.005, 2) = 0.0`: the tie at the second decimal goes to the
even hundredth. -/
theorem round2_of_half_thousandth : round2 (1/200 : ℚ) = 0 := by
  have hfl : ((1:ℚ)/2).floor = 0 := ratFloor_eq_of (1/2) 0 (by norm_num) (by norm_num)
  have hr : roundHalfEven (1/2 : ℚ) = 0 :=
    roundHalfEven_tie_even (1/2) 0 hfl (by norm_num) ⟨0, rfl⟩
  have := round2_of_eq (1/200) (1/2) 0 (by norm_num) hr
  simpa using this

/-- `round(0.006, 2) = 0.01`. -/
theorem round2_of_six_thousandths : round2 (3/500 : ℚ) = 1/100 := by
  have hfl : ((3:ℚ)/5).floor = 0 := ratFloor_eq_of (3/5) 0 (by norm_num) (by norm_num)
  have hr : roundHalfEven (3/5 : ℚ) = 1 := roundHalfEven_eq_of_gt (3/5) 0 hfl (by norm_num)
  have := round2_of_eq (3/500) (3/5) 1 (by norm_num) hr
  simpa using this

/-- `round(0.0055, 2) = 0.01`: 0.55 is not a tie and rounds up. -/
theorem round2_of_fiftyfive : round2 (11/2000 : ℚ) = 1/100 := by
  have hfl : ((11:ℚ)/20).floor = 0 := ratFloor_eq_of (11/20) 0 (by norm_num) (by norm_num)
  have hr : roundHalfEven (11/20 : ℚ) = 1 := roundHalfEven_eq_of_gt (11/20) 0 hfl (by norm_num)
  have := round2_of_eq (11/2000) (11/20) 1 (by norm_num) hr
  simpa using this

end ObjDet

namespace ObjDet.AiBackend

/-- C1 — counterexample: injecting a failure into the JSON dump after
the annotated image was saved (src/ai-backend/app.py line 131 succeeds,
lines 153-154 raise) yields a 500 failure response while exactly one of
the two artifacts — the image — exists: detect has a path that leaves
one file written. -/
theorem C1_counterexample :
    (detect_objects jsonFailRequest).status = 500 ∧
    (detect_objects jsonFailRequest).imgWritten = true ∧
    (detect_objects jsonFailRequest).jsonWritten = false := by decide

/-- C1 — amended: after a success response both artifacts exist; the
JSON artifact is never written without the image artifact; after a
failure response the JSON artifact does not exist — but the image
artifact may (the counterexample), since no failure path deletes it. -/
theorem C1_amended (r : DetectRequest) :
    ((detect_objects r).status = 200 →
      (detect_objects r).imgWritten = true ∧ (detect_objects r).jsonWritten = true)
    ∧ ((detect_objects r).jsonWritten = true → (detect_objects r).imgWritten = true)
    ∧ ((detect_objects r).status ≠ 200 → (detect_objects r).jsonWritten = false) := by
  unfold detect_objects
  repeat' split
  all_goals simp

/-- C1 — witness: on a fully healthy request the success branch indeed
leaves both artifacts on disk. -/
theorem C1_witness :
    (detect_objects allOkRequest).imgWritten = true ∧
    (detect_objects allOkRequest).jsonWritten = true :=
  (C1_amended allOkRequest).1 (by decide)

/-- C2 — code bug: for a request whose declared content type is not an
image, the handler raises `HTTPException(400)` (src/ai-backend/app.py
line 103) inside its own `try`, and the blanket `except Exception`
(line 159) catches it — `HTTPException` subclasses `Exception` — and
re-raises it as a 500 wrapping the 400 in the detail text.  The claim
(and the explicit 400 in the source) state the intent; the actual
status is 500, not 400. -/
theorem C2_code_bug :
    (detect_objects badContentTypeRequest).status = 500 ∧
    (detect_objects badContentTypeRequest).status ≠ 400 ∧
    (detect_objects badContentTypeRequest).detail =
      some "Detection failed: 400: File must be an image" ∧
    (detect_objects badContentTypeRequest).imgWritten = false ∧
    (detect_objects badContentTypeRequest).jsonWritten = false := by decide

/-- C3 — counterexample: on a fully successful request the JSON
artifact differs from the returned body: the dict is dumped to disk
(src/ai-backend/app.py lines 153-154) before the `result_json` key is
inserted into it (line 156), so the artifact lacks that field. -/
theorem C3_counterexample :
    (detect_objects allOkRequest).status = 200 ∧
    (detect_objects allOkRequest).body = some allOkBody ∧
    (detect_objects allOkRequest).jsonArtifact ≠ (detect_objects allOkRequest).body := by decide

/-- C3 — amended: for every successful detect request the parsed JSON
artifact equals the returned body with the `result_json` field removed;
all other fields agree. -/
theorem C3_amended (r : DetectRequest) (b : ResponseData)
    (h : (detect_objects r).body = some b) :
    (detect_objects r).jsonArtifact = some { b with result_json := none } := by
  unfold detect_objects at h ⊢
  repeat' split at h
  all_goals simp only [Option.some.injEq] at h
  all_goals first
  | exact absurd h (by simp)
  | (subst h; simp_all)

/-- C3 — witness: the amended round-trip at the healthy concrete
request. -/
theorem C3_witness :
    (detect_objects allOkRequest).jsonArtifact =
      some { allOkBody with result_json := none } :=
  C3_amended allOkRequest allOkBody (by decide)

/-- C4 — counterexample: two uploads that both carry the original
filename cat.jpg and are processed in the same one-second window (the
same `%Y%m%d_%H%M%S` timestamp) receive the very same artifact names —
the names are NOT distinct, the second upload overwrites the first. -/
theorem C4_counterexample :
    resultFilenameImg "20250101_120000" "cat.jpg" = "result_20250101_120000_cat.jpg" ∧
    resultFilenameJson "20250101_120000" "cat.jpg" = "result_20250101_120000_cat.json" ∧
    ¬ (resultFilenameImg "20250101_120000" "cat.jpg" ≠
        resultFilenameImg "20250101_120000" "cat.jpg") := by decide

/-- C4 — amended: within one one-second timestamp window, two uploads
receive distinct artifact names exactly when their original basenames
(filename minus extension) differ; in particular two uploads of the
same original filename in the same second collide (image and JSON names
alike). -/
theorem C4_amended (t f1 f2 : String) :
    (resultFilenameImg t f1 = resultFilenameImg t f2 ↔
      ObjDet.baseNameOf f1 = ObjDet.baseNameOf f2)
    ∧ (resultFilenameJson t f1 = resultFilenameJson t f2 ↔
      ObjDet.baseNameOf f1 = ObjDet.baseNameOf f2) := by
  constructor
  · constructor
    · intro h
      exact ObjDet.append_middle_inj ("result_" ++ t ++ "_") ".jpg" _ _ h
    · intro h
      unfold resultFilenameImg
      rw [h]
  · constructor
    · intro h
      exact ObjDet.append_middle_inj ("result_" ++ t ++ "_") ".json" _ _ h
    · intro h
      unfold resultFilenameJson
      rw [h]

/-- C4 — witness: two distinct original filenames sharing the basename
cat collide within one second, while the iff certifies, e.g., that
cat and dog do not. -/
theorem C4_witness :
    resultFilenameImg "20250101_120000" "cat.png" =
      resultFilenameImg "20250101_120000" "cat.gif" ∧
    resultFilenameImg "20250101_120000" "cat.png" ≠
      resultFilenameImg "20250101_120000" "dog.png" := by
  constructor
  · exact (C4_amended "20250101_120000" "cat.png" "cat.gif").1.mpr (by decide)
  · intro h
    have hb := (C4_amended "20250101_120000" "cat.png" "dog.png").1.mp h
    exact absurd hb (by decide)

/-- C9 — confirmed: the image artifact name always ends in the string
dot-jpg, and it does not depend on the original upload's extension: any
two extensions on the same basename give the same image artifact name
(the original extension is stripped by `os.path.splitext` and never
reused). -/
theorem C9_theorem (t f root s1 s2 : String)
    (h1 : '.' ∉ s1.data) (h2 : '.' ∉ s2.data)
    (hroot : root.data.any (fun c => decide (c ≠ '.')) = true) :
    (∃ p, resultFilenameImg t f = p ++ ".jpg")
    ∧ resultFilenameImg t (root ++ "." ++ s1) = resultFilenameImg t (root ++ "." ++ s2) := by
  constructor
  · exact ⟨"result_" ++ t ++ "_" ++ ObjDet.baseNameOf f, rfl⟩
  · unfold resultFilenameImg
    rw [ObjDet.baseNameOf_append root s1 h1 hroot,
      ObjDet.baseNameOf_append root s2 h2 hroot]

/-- C9 — witness: concretely, cat.png and cat.webp map to the same
jpg-suffixed image artifact name. -/
theorem C9_witness :
    (∃ p, resultFilenameImg "20250101_120000" "cat.png" = p ++ ".jpg")
    ∧ resultFilenameImg "20250101_120000" ("cat" ++ "." ++ "png") =
      resultFilenameImg "20250101_120000" ("cat" ++ "." ++ "webp") :=
  C9_theorem "20250101_120000" "cat.png" "cat" "png" "webp"
    (by decide) (by decide) (by decide)

end ObjDet.AiBackend

namespace ObjDet.UiBackend

/-- C10 — confirmed: the gateway's extension check lowercases the part
after the last dot before comparing with the allow-list, so a filename
whose extension matches an allowed entry up to letter case is accepted;
and a filename containing no dot at all is rejected. -/
theorem C10_theorem (f base ext : String)
    (hf : '.' ∉ f.data) (he : '.' ∉ ext.data)
    (hmem : ALLOWED_EXTENSIONS.contains (lowerStr ext) = true) :
    allowed_file f = false ∧ allowed_file (base ++ "." ++ ext) = true := by
  constructor
  · unfold allowed_file
    rw [ObjDet.rsplitDot_eq_none f.data hf]
  · unfold allowed_file
    rw [ObjDet.data_append_dot, ObjDet.rsplitDot_append base.data ext.data he]
    exact hmem

/-- C10 — witness: photo.PNG is accepted, README (no dot) is
rejected. -/
theorem C10_witness :
    allowed_file "README" = false ∧ allowed_file ("photo" ++ "." ++ "PNG") = true :=
  C10_theorem "README" "photo" "PNG" (by decide) (by decide) (by decide)

end ObjDet.UiBackend

namespace ObjDet.AiBackend

/-- The loop of `parse_results` maps position `i` of the raw rows to
`mkDetection` at dataframe index `idx + i`. -/
theorem parseFrom_getElem (rows : List RawRow) :
    ∀ idx i, (parseFrom idx rows)[i]? =
      Option.map (fun row => mkDetection (idx + i) row) rows[i]? := by
  induction rows with
  | nil =>
    intro idx i
    simp [parseFrom]
  | cons row rows ih =>
    intro idx i
    cases i with
    | zero => simp [parseFrom]
    | succ i =>
      have harith : idx + 1 + i = idx + (i + 1) := by omega
      simp [parseFrom, ih (idx + 1) i, harith]

/-- C6 — counterexample: on the raw row with corners 0.005 and 0.006
the returned detection has `center.x = 0.01` (the rounding of the raw
midpoint 0.0055) while the midpoint of its own rounded `bounding_box`
fields (0.00 and 0.01) rounds to 0.00 under ties-to-even: the claimed
equation fails on this detection of a returned result. -/
theorem C6_counterexample :
    parse_results [row0] = [mkDetection 0 row0] ∧
    (mkDetection 0 row0).center.x ≠
      round2 (((mkDetection 0 row0).bounding_box.x_min +
        (mkDetection 0 row0).bounding_box.x_max) / 2) := by
  refine ⟨rfl, ?_⟩
  show round2 ((1/200 + 3/500 : ℚ) / 2) ≠
    round2 ((round2 (1/200 : ℚ) + round2 (3/500 : ℚ)) / 2)
  have h1 : ((1:ℚ)/200 + 3/500) / 2 = 11/2000 := by norm_num
  rw [h1, ObjDet.round2_of_fiftyfive, ObjDet.round2_of_half_thousandth,
    ObjDet.round2_of_six_thousandths]
  have h2 : ((0:ℚ) + 1/100) / 2 = 1/200 := by norm_num
  rw [h2, ObjDet.round2_of_half_thousandth]
  norm_num

/-- C6 — amended: for every detection of every returned result,
`center.x` and `center.y` are `round(.., 2)` of the midpoints of the
RAW (unrounded) model coordinates of that row — not of the rounded
`bounding_box` fields, from which they can differ. -/
theorem C6_amended (rows : List RawRow) (i : Nat) (r : RawRow) (d : Detection)
    (hr : rows[i]? = some r) (hd : (parse_results rows)[i]? = some d) :
    d.center.x = round2 ((r.xmin + r.xmax) / 2) ∧
    d.center.y = round2 ((r.ymin + r.ymax) / 2) := by
  unfold parse_results at hd
  rw [parseFrom_getElem rows 0 i, hr] at hd
  simp only [Option.map_some', Option.some.injEq] at hd
  subst hd
  exact ⟨rfl, rfl⟩

/-- C6 — witness: the amended equations at the concrete single-row
result. -/
theorem C6_witness :
    (mkDetection 0 row0).center.x = round2 ((row0.xmin + row0.xmax) / 2) ∧
    (mkDetection 0 row0).center.y = round2 ((row0.ymin + row0.ymax) / 2) :=
  C6_amended [row0] 0 row0 (mkDetection 0 row0) rfl rfl

end ObjDet.AiBackend

namespace ObjDet.UiBackend

/-- C5 — counterexample: a 2xx upstream response that is not exactly
200 (here 201) is NOT passed through: the gateway's check is
`response.status_code == 200` (src/ui-backend/app.py line 135), so a 201
falls into the error branch and comes back with a normalized error
body, not the upstream body. -/
theorem C5_counterexample :
    forward_response "cat.jpg" (.http 201 okUpstreamBody "created") =
      (201, .failure ("AI backend error: " ++ "created")) ∧
    (forward_response "cat.jpg" (.http 201 okUpstreamBody "created")).2 ≠
      GwBody.passthrough (fillDefaults "cat.jpg" okUpstreamBody) := by
  constructor
  · rfl
  · intro h
    simp [forward_response] at h

/-- C5 — amended: the gateway maps the upstream outcome as: exactly
status 200 (not every 2xx) passes the body through, filling `success`,
`image_name`, `detections_count` only when absent and never overriding
provided values or touching other keys; any other upstream status
propagates with a normalized error body; a timeout yields 504, a
connection error 503, and any other local exception 500. -/
theorem C5_amended (fn text msg : String) (s : Nat) (b : UpstreamBody) :
    (forward_response fn (.http 200 b text) = (200, .passthrough (fillDefaults fn b)))
    ∧ (s ≠ 200 → forward_response fn (.http s b text) =
        (s, .failure ("AI backend error: " ++ text)))
    ∧ (forward_response fn .timeout = (504, .failure "AI backend request timeout"))
    ∧ (forward_response fn .connectionError =
        (503, .failure "Cannot connect to AI backend service. Please ensure it\x27s running."))
    ∧ (forward_response fn (.otherError msg) =
        (500, .failure ("Error communicating with AI backend: " ++ msg)))
    ∧ (∀ v, b.success = some v → (fillDefaults fn b).success = some v)
    ∧ (∀ v, b.image_name = some v → (fillDefaults fn b).image_name = some v)
    ∧ (∀ v, b.detections_count = some v → (fillDefaults fn b).detections_count = some v)
    ∧ ((fillDefaults fn b).detections = b.detections ∧ (fillDefaults fn b).rest = b.rest)
    ∧ (b.success = none → (fillDefaults fn b).success = some true)
    ∧ (b.image_name = none → (fillDefaults fn b).image_name = some fn)
    ∧ (b.detections_count = none → (fillDefaults fn b).detections_count =
        some (b.detections.getD []).length) := by
  refine ⟨rfl, ?_, rfl, rfl, rfl, ?_, ?_, ?_, ⟨rfl, rfl⟩, ?_, ?_, ?_⟩
  · intro hs
    simp [forward_response, hs]
  · intro v hv
    simp [fillDefaults, hv]
  · intro v hv
    simp [fillDefaults, hv]
  · intro v hv
    simp [fillDefaults, hv]
  · intro hv
    simp [fillDefaults, hv]
  · intro hv
    simp [fillDefaults, hv]
  · intro hv
    simp [fillDefaults, hv]

/-- C5 — witness: the amended mapping at concrete inputs — a 500
upstream error is propagated as 500 with the normalized error body. -/
theorem C5_witness :
    forward_response "cat.jpg" (UpstreamOutcome.http 500 okUpstreamBody "boom") =
      (500, GwBody.failure ("AI backend error: " ++ "boom")) :=
  (C5_amended "cat.jpg" "boom" "m" 500 okUpstreamBody).2.1 (by decide)

/-- C7 — confirmed: an upload whose file carries an allowed extension
but whose staged bytes fail image validation is answered 400 with the
invalid-image error body, the staged file is removed before responding,
and nothing is forwarded. -/
theorem C7_theorem (secure : String → String) (r : UploadRequest)
    (hlen : r.content_length ≤ MAX_CONTENT_LENGTH)
    (hfield : r.hasImageField = true)
    (hext : allowed_file r.filename = true)
    (hdec : r.decodesOk = false) :
    (upload secure r).status = 400 ∧
    (upload secure r).body = .failure "Invalid image file" ∧
    (upload secure r).stagedRemains = false ∧
    (upload secure r).forwarded = false := by
  have hfn : ¬ (r.filename = "") := by
    intro h
    rw [h] at hext
    exact absurd hext (by decide)
  have h1 : ¬ (MAX_CONTENT_LENGTH < r.content_length) := not_lt.mpr hlen
  simp [upload, h1, hfield, hfn, hext, hdec]

/-- C7 — witness: the concrete corrupted upload (allowed extension,
undecodable bytes) is rejected with 400 and leaves no staged file. -/
theorem C7_witness :
    (upload id corruptUploadRequest).status = 400 ∧
    (upload id corruptUploadRequest).body = .failure "Invalid image file" ∧
    (upload id corruptUploadRequest).stagedRemains = false ∧
    (upload id corruptUploadRequest).forwarded = false :=
  C7_theorem id corruptUploadRequest (by decide) (by decide) (by decide) (by decide)

/-- C8 — counterexample: an upload exceeding the 16 MiB ceiling is NOT
answered with a 400 `ValidationError`: werkzeug's
`RequestEntityTooLarge` is raised when the handler first touches
`request.files`, and the blanket `except Exception`
(src/ui-backend/app.py line 174) converts it into a 500 — though still
with no forwarding and no artifact. -/
theorem C8_counterexample :
    (upload id oversizeUploadRequest).status = 500 ∧
    (upload id oversizeUploadRequest).status ≠ 400 ∧
    (upload id oversizeUploadRequest).forwarded = false ∧
    (upload id oversizeUploadRequest).stagedRemains = false := by decide

/-- C8 — amended: a missing file, an empty filename, or a disallowed
extension each yield a 400 `ValidationError` with no forwarding and no
artifact; a request over the 16 MiB ceiling instead yields a 500 (the
framework's `RequestEntityTooLarge`, swallowed by the handler's blanket
exception handler), likewise with no forwarding and no artifact. -/
theorem C8_amended (secure : String → String) (r : UploadRequest) :
    (MAX_CONTENT_LENGTH < r.content_length →
      (upload secure r).status = 500 ∧ (upload secure r).forwarded = false ∧
      (upload secure r).stagedRemains = false)
    ∧ (r.content_length ≤ MAX_CONTENT_LENGTH → r.hasImageField = false →
      (upload secure r).status = 400 ∧
      (upload secure r).body = .failure "No image file provided" ∧
      (upload secure r).forwarded = false ∧ (upload secure r).stagedRemains = false)
    ∧ (r.content_length ≤ MAX_CONTENT_LENGTH → r.hasImageField = true → r.filename = "" →
      (upload secure r).status = 400 ∧
      (upload secure r).body = .failure "No file selected" ∧
      (upload secure r).forwarded = false ∧ (upload secure r).stagedRemains = false)
    ∧ (r.content_length ≤ MAX_CONTENT_LENGTH → r.hasImageField = true →
      allowed_file r.filename = false → r.filename ≠ "" →
      (upload secure r).status = 400 ∧
      (upload secure r).body =
        .failure "Invalid file type. Allowed: png, jpg, jpeg, gif, bmp, webp" ∧
      (upload secure r).forwarded = false ∧ (upload secure r).stagedRemains = false) := by
  refine ⟨?_, ?_, ?_, ?_⟩
  · intro hgt
    simp [upload, hgt]
  · intro hle hfield
    have h1 : ¬ (MAX_CONTENT_LENGTH < r.content_length) := not_lt.mpr hle
    simp [upload, h1, hfield]
  · intro hle hfield hemp
    have h1 : ¬ (MAX_CONTENT_LENGTH < r.content_length) := not_lt.mpr hle
    simp [upload, h1, hfield, hemp]
  · intro hle hfield hext hfn
    have h1 : ¬ (MAX_CONTENT_LENGTH < r.content_length) := not_lt.mpr hle
    simp [upload, h1, hfield, hext, hfn]

/-- C8 — witness: the concrete disallowed-extension upload (notes.txt)
is rejected with 400, unforwarded and artifact-free. -/
theorem C8_witness :
    (upload id badExtUploadRequest).status = 400 ∧
    (upload id badExtUploadRequest).body =
      .failure "Invalid file type. Allowed: png, jpg, jpeg, gif, bmp, webp" ∧
    (upload id badExtUploadRequest).forwarded = false ∧
    (upload id badExtUploadRequest).stagedRemains = false :=
  (C8_amended id badExtUploadRequest).2.2.2 (by decide) (by decide) (by decide) (by decide)

end ObjDet.UiBackend
